import Mathlib

/-!
Shallow embedding of the heartbeat/health-monitoring core of the
`langgraph-crosschain-validation` repository:

* `src/health/heartbeat.py`   — `HeartbeatManager` (register, unregister, ping,
  last-seen / ping-interval lookup, liveness check);
* `src/health/chain_monitor.py` — `ChainHealthMonitor.check_health` and
  `ChainHealthMonitor.get_metrics`;
* `src/health/status.py`      — `HealthStatus`, `HealthMetrics`;
* `src/api/health_router.py`  — `get_chain_monitor` (lazy monitor creation and
  auto-registration) and `get_health_dashboard` (aggregation).

Modelling conventions:
* `datetime.now()` is threaded as an explicit `now : Int` argument; `timedelta`
  subtraction and comparison become `Int` subtraction and `≤`.
* Python dicts keyed by chain id become association lists with the update /
  delete / lookup operations defined below (Python dicts have unique keys;
  `dictSet` updates in place or appends, `dictDel` removes the key entirely).
* The external probe (`ChainApiClient`) is modelled by its outcome: `none` for
  "no client configured", `some (Except.ok v)` for a call that returns `v`,
  `some (Except.error ())` for a call that raises.  Catching an exception in
  the Python source becomes matching on `Except.error`.
* Floats (`response_time_ms`, `error_rate`) are modelled as rationals; every
  concrete value appearing in the relevant logic (0, -1, 1.0, …) is exact.
-/

namespace CrossChainHealth

/-- The four-valued status enumeration from `src/health/status.py`. -/
inductive HealthStatus where
  | HEALTHY
  | DEGRADED
  | UNHEALTHY
  | UNKNOWN
deriving DecidableEq, Repr, BEq

/-- Lookup in a Python-dict-as-association-list (`d.get(k)` / `d[k]`). -/
def dictLookup (l : List (String × Int)) (k : String) : Option Int :=
  match l with
  | [] => none
  | (k', v) :: rest => if k' = k then some v else dictLookup rest k

/-- Update-or-insert in a Python dict (`d[k] = v`): replaces the value at an
existing key in place, otherwise appends the new binding at the end, matching
Python's insertion-order semantics. -/
def dictSet (l : List (String × Int)) (k : String) (v : Int) : List (String × Int) :=
  match l with
  | [] => [(k, v)]
  | (k', v') :: rest => if k' = k then (k, v) :: rest else (k', v') :: dictSet rest k v

/-- Deletion from a Python dict (`del d[k]`): removes the key entirely. -/
def dictDel (l : List (String × Int)) (k : String) : List (String × Int) :=
  match l with
  | [] => []
  | (k', v') :: rest => if k' = k then dictDel rest k else (k', v') :: dictDel rest k

/-- State of `HeartbeatManager` (`src/health/heartbeat.py`, `__init__`):
`_last_seen`, `_ping_intervals`, and `_default_ping_interval_seconds`
(constructor default 30). -/
structure HeartbeatManager where
  last_seen : List (String × Int)
  ping_intervals : List (String × Int)
  default_ping_interval_seconds : Int
deriving DecidableEq, Repr

/-- A freshly constructed `HeartbeatManager(default_ping_interval_seconds=d)`:
both dicts empty. -/
def initial_manager (d : Int) : HeartbeatManager := ⟨[], [], d⟩

/-- Python's truthiness-based `x or default` applied to an optional int
argument: `None` and `0` are falsy and fall back to the default; every other
int (negatives included) is kept. -/
def pyOrDefault (x : Option Int) (d : Int) : Int :=
  match x with
  | none => d
  | some v => if v = 0 then d else v

/-- `HeartbeatManager.register_chain`: if the chain id is not in `_last_seen`,
stamp `last_seen` to now and `ping_interval` to
`ping_interval_seconds or self._default_ping_interval_seconds`; otherwise do
nothing (the source only prints). -/
def register_chain (m : HeartbeatManager) (now : Int) (chain_id : String)
    (ping_interval_seconds : Option Int) : HeartbeatManager :=
  if (dictLookup m.last_seen chain_id).isSome then m
  else
    { m with
      last_seen := dictSet m.last_seen chain_id now,
      ping_intervals := dictSet m.ping_intervals chain_id
        (pyOrDefault ping_interval_seconds m.default_ping_interval_seconds) }

/-- `HeartbeatManager.unregister_chain`: if the chain id is in `_last_seen`,
delete it from both dicts; otherwise do nothing. -/
def unregister_chain (m : HeartbeatManager) (chain_id : String) : HeartbeatManager :=
  if (dictLookup m.last_seen chain_id).isSome then
    { m with
      last_seen := dictDel m.last_seen chain_id,
      ping_intervals := dictDel m.ping_intervals chain_id }
  else m

/-- `HeartbeatManager.get_last_seen`: `self._last_seen.get(chain_id)`. -/
def get_last_seen (m : HeartbeatManager) (chain_id : String) : Option Int :=
  dictLookup m.last_seen chain_id

/-- `HeartbeatManager.get_ping_interval`: `self._ping_intervals.get(chain_id)`. -/
def get_ping_interval (m : HeartbeatManager) (chain_id : String) : Option Int :=
  dictLookup m.ping_intervals chain_id

/-- `HeartbeatManager.ping_chain`: if registered, set `last_seen` to now and
return true; otherwise return false, leaving the state untouched. -/
def ping_chain (m : HeartbeatManager) (now : Int) (chain_id : String) :
    HeartbeatManager × Bool :=
  if (dictLookup m.last_seen chain_id).isSome then
    ({ m with last_seen := dictSet m.last_seen chain_id now }, true)
  else (m, false)

/-- `HeartbeatManager.is_chain_alive`: false when either lookup returns `None`;
otherwise alive iff `now - last_seen <= timedelta(seconds=ping_interval)`. -/
def is_chain_alive (m : HeartbeatManager) (now : Int) (chain_id : String) : Bool :=
  match dictLookup m.last_seen chain_id, dictLookup m.ping_intervals chain_id with
  | some last_seen, some ping_interval => decide (now - last_seen ≤ ping_interval)
  | _, _ => false

/-- `HealthMetrics` (`src/health/status.py`) restricted to the fields the core
logic reads or writes, plus the `is_alive` attribute that
`ChainHealthMonitor.get_metrics` adds dynamically.  The untouched `metadata`
dict is omitted. -/
structure HealthMetrics where
  timestamp : Int
  response_time_ms : ℚ
  error_rate : ℚ
  availability : ℚ
  last_checked : Int
  is_alive : Bool
deriving DecidableEq, Repr

/-- The metrics snapshot built in `ChainHealthMonitor.__init__`: zero/neutral
defaults, timestamps stamped at construction time.  (`is_alive` is not set by
`__init__` in the source; it is first assigned in `get_metrics`, which always
runs before the field is read, so its initial value is immaterial.) -/
def initial_metrics (now : Int) : HealthMetrics :=
  { timestamp := now, response_time_ms := 0, error_rate := 0,
    availability := 0, last_checked := now, is_alive := false }

/-- The fields of the dict returned by the probe's `get_status()` that
`get_metrics` reads; each is optional because the source uses
`status_data.get(field, default)`.  The other keys of the dict (`status`,
`error`) are never read by the core and are omitted. -/
structure StatusData where
  response_time_ms : Option ℚ
  error_rate : Option ℚ
deriving DecidableEq, Repr

/-- `ChainHealthMonitor.check_health`: UNHEALTHY when the heartbeat manager
reports the chain not alive; else, with a client configured, HEALTHY /
DEGRADED / UNHEALTHY according to whether `ping()` returns true, returns
false, or raises; else HEALTHY. -/
def check_health (m : HeartbeatManager) (now : Int) (chain_id : String)
    (chain_api_client : Option (Except Unit Bool)) : HealthStatus :=
  if !(is_chain_alive m now chain_id) then HealthStatus.UNHEALTHY
  else
    match chain_api_client with
    | some chain_response =>
      match chain_response with
      | Except.ok true => HealthStatus.HEALTHY
      | Except.ok false => HealthStatus.DEGRADED
      | Except.error _ => HealthStatus.UNHEALTHY
    | none => HealthStatus.HEALTHY

/-- `ChainHealthMonitor.get_metrics`: refreshes `is_alive` and `last_checked`,
then, with a client, copies `response_time_ms` / `error_rate` from
`get_status()` (missing fields default to 0 / 0.0) or sets the failure
sentinels -1 / 1.0 when `get_status()` raises; with no client, sets 0 / 0.0. -/
def get_metrics (m : HeartbeatManager) (now : Int) (chain_id : String)
    (chain_api_client : Option (Except Unit StatusData))
    (last_metrics : HealthMetrics) : HealthMetrics :=
  let base := { last_metrics with
                is_alive := is_chain_alive m now chain_id,
                last_checked := now }
  match chain_api_client with
  | some (Except.ok status_data) =>
    { base with
      response_time_ms := status_data.response_time_ms.getD 0,
      error_rate := status_data.error_rate.getD 0 }
  | some (Except.error _) =>
    { base with response_time_ms := -1, error_rate := 1 }
  | none =>
    { base with response_time_ms := 0, error_rate := 0 }

/-- The result assembled by `get_health_dashboard` in
`src/api/health_router.py`: overall status, total chain count, and the two
counters (the per-chain sub-map of the JSON payload is not modelled; it only
echoes each chain's individual status and metrics). -/
structure DashboardData where
  overall_status : HealthStatus
  total_chains : Nat
  unhealthy_chains : Nat
  degraded_chains : Nat
deriving DecidableEq, Repr

/-- One iteration of the counting loop in `get_health_dashboard`: increment
the unhealthy counter on UNHEALTHY, the degraded counter on DEGRADED, leave
both alone otherwise. -/
def status_step (acc : Nat × Nat) (hs : HealthStatus) : Nat × Nat :=
  if hs = HealthStatus.UNHEALTHY then (acc.1 + 1, acc.2)
  else if hs = HealthStatus.DEGRADED then (acc.1, acc.2 + 1)
  else acc

/-- `get_health_dashboard` (`src/api/health_router.py`): iterates the monitor
collection, computing each chain's `check_health` verdict, counts UNHEALTHY
and DEGRADED chains, and derives the overall status (UNHEALTHY if any
unhealthy, else DEGRADED if any degraded, else the initial HEALTHY).  A
monitor is represented by its chain id together with its probe outcome. -/
def get_health_dashboard (m : HeartbeatManager) (now : Int)
    (monitors : List (String × Option (Except Unit Bool))) : DashboardData :=
  let statuses := monitors.map (fun mon => check_health m now mon.1 mon.2)
  let counts := statuses.foldl status_step (0, 0)
  { overall_status :=
      if counts.1 > 0 then HealthStatus.UNHEALTHY
      else if counts.2 > 0 then HealthStatus.DEGRADED
      else HealthStatus.HEALTHY,
    total_chains := monitors.length,
    unhealthy_chains := counts.1,
    degraded_chains := counts.2 }

/-- The module-level state of `src/api/health_router.py` that
`get_chain_monitor` reads and writes: the global heartbeat manager and the
set of chain ids for which a `ChainHealthMonitor` has been created (each
monitor's client is the same `DummyChainApiClient`, so only the ids are
tracked). -/
structure RouterState where
  heartbeat_manager : HeartbeatManager
  chain_monitors : List String
deriving DecidableEq, Repr

/-- The router module's state at import time: `HeartbeatManager()` — whose
constructor default interval is 30 — and no monitors. -/
def initial_router_state : RouterState := ⟨initial_manager 30, []⟩

/-- `get_chain_monitor` (`src/api/health_router.py`): when no monitor exists
for the chain id, registers the chain in the heartbeat manager (only if
`get_last_seen` is `None`) with the hard-coded `ping_interval_seconds=5`, and
records the new monitor. -/
def get_chain_monitor (s : RouterState) (now : Int) (chain_id : String) : RouterState :=
  if chain_id ∈ s.chain_monitors then s
  else
    { heartbeat_manager :=
        if (get_last_seen s.heartbeat_manager chain_id).isNone then
          register_chain s.heartbeat_manager now chain_id (some 5)
        else s.heartbeat_manager,
      chain_monitors := s.chain_monitors ++ [chain_id] }

/-- One mutating operation on the heartbeat registry, with its wall-clock
instant where the source reads `datetime.now()`. -/
inductive RegistryOp where
  | register (now : Int) (chain_id : String) (interval : Option Int)
  | unregister (chain_id : String)
  | ping (now : Int) (chain_id : String)
deriving DecidableEq, Repr

/-- Interpretation of one registry operation on a manager state. -/
def apply_op (m : HeartbeatManager) : RegistryOp → HeartbeatManager
  | RegistryOp.register now c i => register_chain m now c i
  | RegistryOp.unregister c => unregister_chain m c
  | RegistryOp.ping now c => (ping_chain m now c).1

/-- A sequence of registry operations run left to right. -/
def run_ops (m : HeartbeatManager) (ops : List RegistryOp) : HeartbeatManager :=
  ops.foldl apply_op m

/-! ### Association-list lemmas -/

theorem dictLookup_dictSet_same (l : List (String × Int)) (k : String) (v : Int) :
    dictLookup (dictSet l k v) k = some v := by
  induction l with
  | nil => simp [dictSet, dictLookup]
  | cons p rest ih =>
    by_cases h : p.1 = k
    · simp [dictSet, dictLookup, h]
    · simp [dictSet, dictLookup, h, ih]

theorem dictLookup_dictSet_ne (l : List (String × Int)) (k k' : String) (v : Int)
    (h : k' ≠ k) : dictLookup (dictSet l k v) k' = dictLookup l k' := by
  induction l with
  | nil => simp [dictSet, dictLookup, Ne.symm h]
  | cons p rest ih =>
    by_cases hp : p.1 = k
    · simp [dictSet, dictLookup, hp, Ne.symm h]
    · by_cases hp' : p.1 = k'
      · simp [dictSet, dictLookup, hp, hp', h]
      · simp [dictSet, dictLookup, hp, hp', ih]

theorem dictLookup_dictDel_same (l : List (String × Int)) (k : String) :
    dictLookup (dictDel l k) k = none := by
  induction l with
  | nil => simp [dictDel, dictLookup]
  | cons p rest ih =>
    by_cases h : p.1 = k
    · simp [dictDel, h, ih]
    · simp [dictDel, dictLookup, h, ih]

theorem dictLookup_dictDel_ne (l : List (String × Int)) (k k' : String)
    (h : k' ≠ k) : dictLookup (dictDel l k) k' = dictLookup l k' := by
  induction l with
  | nil => simp [dictDel]
  | cons p rest ih =>
    by_cases hp : p.1 = k
    · have hp' : ¬ p.1 = k' := by rw [hp]; exact Ne.symm h
      simp [dictDel, dictLookup, hp, hp', Ne.symm h, ih]
    · simp [dictDel, dictLookup, hp, ih]

/-! ### Claim theorems -/

/-- C1: for every chain, `check_health` returns UNHEALTHY when the heartbeat
registry reports the chain not alive, regardless of probe configuration; when
the chain is alive it returns HEALTHY with no probe configured, HEALTHY when
the probe's `ping()` returns true, DEGRADED when it returns false, and
UNHEALTHY when it raises (the exception is caught inside `check_health`, so it
is not propagated: the raising case is the `Except.error` branch of the total
function). -/
theorem C1_check_health_cases (m : HeartbeatManager) (now : Int) (c : String) :
    (is_chain_alive m now c = false →
      ∀ client : Option (Except Unit Bool),
        check_health m now c client = HealthStatus.UNHEALTHY) ∧
    (is_chain_alive m now c = true →
      check_health m now c none = HealthStatus.HEALTHY ∧
      check_health m now c (some (Except.ok true)) = HealthStatus.HEALTHY ∧
      check_health m now c (some (Except.ok false)) = HealthStatus.DEGRADED ∧
      ∀ e : Unit,
        check_health m now c (some (Except.error e)) = HealthStatus.UNHEALTHY) := by
  constructor
  · intro h client
    simp [check_health, h]
  · intro h
    refine ⟨?_, ?_, ?_, ?_⟩ <;> simp [check_health, h]

/-- C1 witness: the not-alive branch on a fresh manager, and the
probe-returns-false branch on a manager where chain `c1` was just seen. -/
theorem C1_check_health_cases_witness :
    check_health (initial_manager 30) 0 "c1" (some (Except.ok true))
      = HealthStatus.UNHEALTHY ∧
    check_health ⟨[("c1", 0)], [("c1", 30)], 30⟩ 0 "c1" (some (Except.ok false))
      = HealthStatus.DEGRADED := by
  constructor
  · exact (C1_check_health_cases (initial_manager 30) 0 "c1").1 rfl _
  · exact ((C1_check_health_cases ⟨[("c1", 0)], [("c1", 30)], 30⟩ 0 "c1").2 rfl).2.2.1

/-- C10: for every manager state, instant, chain and probe outcome (including
a raising probe), `check_health` returns one of HEALTHY, DEGRADED, UNHEALTHY —
never UNKNOWN. -/
theorem C10_check_health_never_unknown (m : HeartbeatManager) (now : Int)
    (c : String) (client : Option (Except Unit Bool)) :
    check_health m now c client = HealthStatus.HEALTHY ∨
    check_health m now c client = HealthStatus.DEGRADED ∨
    check_health m now c client = HealthStatus.UNHEALTHY := by
  cases h : is_chain_alive m now c <;>
    rcases client with _ | ⟨e | b⟩ <;>
      first
        | (cases b <;> simp [check_health, h])
        | simp [check_health, h]

/-- C4: `is_chain_alive` is false when the chain is unregistered (either
lookup yields `None`), and otherwise true exactly when
`now - last_seen ≤ ping_interval`, so the boundary instant
`now - last_seen = ping_interval` counts as alive. -/
theorem C4_is_alive_boundary (m : HeartbeatManager) (now : Int) (c : String) :
    (get_last_seen m c = none ∨ get_ping_interval m c = none →
      is_chain_alive m now c = false) ∧
    (∀ ls pi, get_last_seen m c = some ls → get_ping_interval m c = some pi →
      (is_chain_alive m now c = true ↔ now - ls ≤ pi)) := by
  constructor
  · intro h
    unfold is_chain_alive
    rcases h with h | h
    · simp only [get_last_seen] at h
      rw [h]
    · simp only [get_ping_interval] at h
      rw [h]
      cases dictLookup m.last_seen c <;> rfl
  · intro ls pi h1 h2
    simp only [get_last_seen] at h1
    simp only [get_ping_interval] at h2
    unfold is_chain_alive
    rw [h1, h2]
    simp

/-- C4 witness: at the inclusive boundary (last seen at 10, interval 5,
checked at 15) the chain counts as alive. -/
theorem C4_is_alive_boundary_witness :
    is_chain_alive ⟨[("c", 10)], [("c", 5)], 30⟩ 15 "c" = true :=
  ((C4_is_alive_boundary ⟨[("c", 10)], [("c", 5)], 30⟩ 15 "c").2 10 5 rfl rfl).mpr
    (by decide)

/-- C5: `get_metrics` (a total function here, so it never raises) copies
`response_time_ms` / `error_rate` from a successful `get_status()` with
missing fields defaulting to 0 / 0.0, sets the sentinels -1 / 1.0 when
`get_status()` raises, and sets 0 / 0.0 when no probe is configured. -/
theorem C5_get_metrics_fields (m : HeartbeatManager) (now : Int) (c : String)
    (client : Option (Except Unit StatusData)) (lm : HealthMetrics) :
    (∀ sd, client = some (Except.ok sd) →
      (get_metrics m now c client lm).response_time_ms = sd.response_time_ms.getD 0 ∧
      (get_metrics m now c client lm).error_rate = sd.error_rate.getD 0) ∧
    (∀ e, client = some (Except.error e) →
      (get_metrics m now c client lm).response_time_ms = -1 ∧
      (get_metrics m now c client lm).error_rate = 1) ∧
    (client = none →
      (get_metrics m now c client lm).response_time_ms = 0 ∧
      (get_metrics m now c client lm).error_rate = 0) := by
  refine ⟨?_, ?_, ?_⟩
  · rintro sd rfl
    simp [get_metrics]
  · rintro e rfl
    simp [get_metrics]
  · rintro rfl
    simp [get_metrics]

/-- C5 witness: a successful probe reporting `response_time_ms = 50` with the
`error_rate` field missing yields 50 and the 0.0 default. -/
theorem C5_get_metrics_fields_witness :
    (get_metrics (initial_manager 30) 0 "c1" (some (Except.ok ⟨some 50, none⟩))
      (initial_metrics 0)).response_time_ms = 50 ∧
    (get_metrics (initial_manager 30) 0 "c1" (some (Except.ok ⟨some 50, none⟩))
      (initial_metrics 0)).error_rate = 0 :=
  (C5_get_metrics_fields (initial_manager 30) 0 "c1"
    (some (Except.ok ⟨some 50, none⟩)) (initial_metrics 0)).1 ⟨some 50, none⟩ rfl

/-- C6: evaluation of `register_chain` at the failing input — a fresh manager
(default interval 30) and an explicitly supplied interval of 0.  Because the
source computes `ping_interval_seconds or self._default_ping_interval_seconds`
and `0` is falsy in Python, the stored interval is 30, not the supplied 0,
contradicting the claim (and the function's own docstring, which promises the
default only for `None`). -/
theorem C6_register_zero_interval_bug :
    get_ping_interval (register_chain (initial_manager 30) 0 "c" (some 0)) "c"
      = some 30 ∧ (30 : Int) ≠ 0 := by
  exact ⟨rfl, by decide⟩

/-- C3 counterexample: querying the fresh router state for the unseen chain
`c1` registers it with ping interval 5, while the heartbeat manager's process
default is 30 — so the auto-registration does not use the default interval as
the claim states. -/
theorem C3_auto_register_counterexample :
    get_ping_interval (get_chain_monitor initial_router_state 0 "c1").heartbeat_manager
      "c1" = some 5 ∧
    initial_router_state.heartbeat_manager.default_ping_interval_seconds = 30 ∧
    (5 : Int) ≠ 30 := by
  refine ⟨rfl, rfl, by decide⟩

/-- C3 (amended): for every chain id with no monitor and no heartbeat record,
`get_chain_monitor` lazily creates a monitor and auto-registers the chain into
the heartbeat registry — stamping `last_seen` to now — with the hard-coded
interval of 5 seconds (not the registry's process default), rather than
returning an error. -/
theorem C3_lazy_monitor_creation (s : RouterState) (now : Int) (c : String)
    (h1 : c ∉ s.chain_monitors) (h2 : get_last_seen s.heartbeat_manager c = none) :
    c ∈ (get_chain_monitor s now c).chain_monitors ∧
    get_last_seen (get_chain_monitor s now c).heartbeat_manager c = some now ∧
    get_ping_interval (get_chain_monitor s now c).heartbeat_manager c = some 5 := by
  simp only [get_last_seen] at h2
  unfold get_chain_monitor
  rw [if_neg h1]
  simp only [get_last_seen, h2, Option.isNone_none, if_pos]
  unfold register_chain
  rw [if_neg (by rw [h2]; simp)]
  refine ⟨by simp, ?_, ?_⟩
  · simp only [get_last_seen]
    exact dictLookup_dictSet_same _ _ _
  · simp only [get_ping_interval]
    rw [dictLookup_dictSet_same]
    norm_num [pyOrDefault]

/-- C3 witness: the amended behavior evaluated on the fresh router state at
instant 7 for chain `c1`. -/
theorem C3_lazy_monitor_creation_witness :
    "c1" ∈ (get_chain_monitor initial_router_state 7 "c1").chain_monitors ∧
    get_last_seen (get_chain_monitor initial_router_state 7 "c1").heartbeat_manager
      "c1" = some 7 ∧
    get_ping_interval (get_chain_monitor initial_router_state 7 "c1").heartbeat_manager
      "c1" = some 5 :=
  C3_lazy_monitor_creation initial_router_state 7 "c1" (by decide) rfl

/-- Registering a chain always leaves it registered: its `last_seen` lookup
succeeds afterwards, whether or not it was registered before. -/
theorem get_last_seen_register_isSome (m : HeartbeatManager) (now : Int)
    (c : String) (i : Option Int) :
    (get_last_seen (register_chain m now c i) c).isSome = true := by
  unfold register_chain get_last_seen
  by_cases h : (dictLookup m.last_seen c).isSome
  · rw [if_pos h]
    exact h
  · rw [if_neg h]
    simp [dictLookup_dictSet_same]

/-- C7: `register_chain` is idempotent — a second call on an
already-registered chain, even with a different interval and at a different
instant, is a no-op that leaves the whole manager state (in particular the
chain's `last_seen` and its first `ping_interval`) untouched.  The second
conjunct needs no registration hypothesis: after one `register_chain` the
chain is registered, so the repeated call always collapses. -/
theorem C7_register_idempotent (m : HeartbeatManager) (now₁ now₂ : Int)
    (c : String) (i₁ i₂ : Option Int) :
    ((get_last_seen m c).isSome = true → register_chain m now₂ c i₂ = m) ∧
    register_chain (register_chain m now₁ c i₁) now₂ c i₂
      = register_chain m now₁ c i₁ := by
  have noop : ∀ (m' : HeartbeatManager) (now : Int) (i : Option Int),
      (get_last_seen m' c).isSome = true → register_chain m' now c i = m' := by
    intro m' now i h
    simp only [get_last_seen] at h
    unfold register_chain
    rw [if_pos h]
  exact ⟨noop m now₂ i₂,
    noop (register_chain m now₁ c i₁) now₂ i₂ (get_last_seen_register_isSome m now₁ c i₁)⟩

/-- C7 witness: re-registering chain `c` (registered with interval 7) at a
later instant with interval 1 changes nothing. -/
theorem C7_register_idempotent_witness :
    register_chain (⟨[("c", 0)], [("c", 7)], 30⟩ : HeartbeatManager) 99 "c" (some 1)
      = ⟨[("c", 0)], [("c", 7)], 30⟩ :=
  (C7_register_idempotent ⟨[("c", 0)], [("c", 7)], 30⟩ 0 99 "c" none (some 1)).1 rfl

/-- C8: pinging an unregistered chain returns false and leaves the entire
registry state unchanged; pinging a registered chain returns true, sets that
chain's `last_seen` to now, and changes nothing else — every other chain's
`last_seen`, the whole `ping_intervals` dict, and the default interval are
untouched. -/
theorem C8_ping_contract (m : HeartbeatManager) (now : Int) (c : String) :
    (get_last_seen m c = none → ping_chain m now c = (m, false)) ∧
    ((get_last_seen m c).isSome = true →
      (ping_chain m now c).2 = true ∧
      get_last_seen (ping_chain m now c).1 c = some now ∧
      (∀ c', c' ≠ c → get_last_seen (ping_chain m now c).1 c' = get_last_seen m c') ∧
      (ping_chain m now c).1.ping_intervals = m.ping_intervals ∧
      (ping_chain m now c).1.default_ping_interval_seconds
        = m.default_ping_interval_seconds) := by
  constructor
  · intro h
    simp only [get_last_seen] at h
    unfold ping_chain
    rw [h]
    rfl
  · intro h
    simp only [get_last_seen] at h
    unfold ping_chain
    rw [if_pos h]
    refine ⟨rfl, ?_, ?_, rfl, rfl⟩
    · simp only [get_last_seen]
      exact dictLookup_dictSet_same _ _ _
    · intro c' hc'
      simp only [get_last_seen]
      exact dictLookup_dictSet_ne _ _ _ _ hc'

/-- C8 witness: pinging the unregistered chain `c` on a fresh manager is a
pure no-op returning false, and pinging the registered chain `c` refreshes its
timestamp, returns true, and keeps its interval dict intact. -/
theorem C8_ping_contract_witness :
    ping_chain (initial_manager 30) 5 "c" = (initial_manager 30, false) ∧
    get_last_seen (ping_chain (⟨[("c", 0)], [("c", 7)], 30⟩ : HeartbeatManager)
      5 "c").1 "c" = some 5 := by
  constructor
  · exact (C8_ping_contract (initial_manager 30) 5 "c").1 rfl
  · exact ((C8_ping_contract ⟨[("c", 0)], [("c", 7)], 30⟩ 5 "c").2 rfl).2.1

/-- The counting loop of the dashboard computes exactly the number of
UNHEALTHY and the number of DEGRADED statuses in the list, on top of the
accumulator it starts from. -/
theorem foldl_status_step (l : List HealthStatus) (a b : Nat) :
    l.foldl status_step (a, b) =
      (a + l.countP (fun s => s = HealthStatus.UNHEALTHY),
       b + l.countP (fun s => s = HealthStatus.DEGRADED)) := by
  induction l generalizing a b with
  | nil => simp
  | cons s rest ih =>
    cases s <;>
      simp [status_step, List.countP_cons, ih, Prod.ext_iff] <;> omega

/-- C2: the dashboard output carries the total number of monitored chains and
the exact counts of chains whose `check_health` verdict is UNHEALTHY and
DEGRADED, its overall status is UNHEALTHY when the unhealthy count is
positive, else DEGRADED when the degraded count is positive, else HEALTHY, and
with no monitored chains at all the result is HEALTHY with zero counts, not an
error. -/
theorem C2_dashboard_aggregation (m : HeartbeatManager) (now : Int)
    (monitors : List (String × Option (Except Unit Bool))) :
    (get_health_dashboard m now monitors).total_chains = monitors.length ∧
    (get_health_dashboard m now monitors).unhealthy_chains =
      (monitors.map (fun mon => check_health m now mon.1 mon.2)).countP
        (fun s => s = HealthStatus.UNHEALTHY) ∧
    (get_health_dashboard m now monitors).degraded_chains =
      (monitors.map (fun mon => check_health m now mon.1 mon.2)).countP
        (fun s => s = HealthStatus.DEGRADED) ∧
    (get_health_dashboard m now monitors).overall_status =
      (if 0 < (get_health_dashboard m now monitors).unhealthy_chains then
        HealthStatus.UNHEALTHY
      else if 0 < (get_health_dashboard m now monitors).degraded_chains then
        HealthStatus.DEGRADED
      else HealthStatus.HEALTHY) ∧
    get_health_dashboard m now [] =
      ⟨HealthStatus.HEALTHY, 0, 0, 0⟩ := by
  simp only [get_health_dashboard, foldl_status_step, Nat.zero_add, gt_iff_lt,
    List.map_nil, List.length_nil, List.foldl_nil]
  exact ⟨trivial, trivial, trivial, trivial, rfl⟩

/-- The key-set agreement invariant of the heartbeat registry: a chain id has
a `last_seen` entry exactly when it has a `ping_interval` entry. -/
def keys_agree (m : HeartbeatManager) : Prop :=
  ∀ c, (dictLookup m.last_seen c).isSome = (dictLookup m.ping_intervals c).isSome

/-- `register_chain` preserves key-set agreement. -/
theorem keys_agree_register (m : HeartbeatManager) (now : Int) (c : String)
    (i : Option Int) (h : keys_agree m) : keys_agree (register_chain m now c i) := by
  unfold register_chain
  by_cases hc : (dictLookup m.last_seen c).isSome
  · rw [if_pos hc]
    exact h
  · rw [if_neg hc]
    intro c'
    by_cases hc' : c' = c
    · subst hc'
      simp [dictLookup_dictSet_same]
    · simp only [dictLookup_dictSet_ne _ _ _ _ hc']
      exact h c'

/-- `unregister_chain` preserves key-set agreement. -/
theorem keys_agree_unregister (m : HeartbeatManager) (c : String)
    (h : keys_agree m) : keys_agree (unregister_chain m c) := by
  unfold unregister_chain
  by_cases hc : (dictLookup m.last_seen c).isSome
  · rw [if_pos hc]
    intro c'
    by_cases hc' : c' = c
    · subst hc'
      simp [dictLookup_dictDel_same]
    · simp only [dictLookup_dictDel_ne _ _ _ hc']
      exact h c'
  · rw [if_neg hc]
    exact h

/-- `ping_chain` preserves key-set agreement. -/
theorem keys_agree_ping (m : HeartbeatManager) (now : Int) (c : String)
    (h : keys_agree m) : keys_agree (ping_chain m now c).1 := by
  unfold ping_chain
  by_cases hc : (dictLookup m.last_seen c).isSome
  · rw [if_pos hc]
    intro c'
    by_cases hc' : c' = c
    · subst hc'
      simp only [dictLookup_dictSet_same, Option.isSome_some]
      exact ((h c').symm.trans hc).symm
    · simp only [dictLookup_dictSet_ne _ _ _ _ hc']
      exact h c'
  · rw [if_neg hc]
    exact h

/-- Any sequence of registry operations preserves key-set agreement. -/
theorem keys_agree_run_ops (ops : List RegistryOp) (m : HeartbeatManager)
    (h : keys_agree m) : keys_agree (run_ops m ops) := by
  induction ops generalizing m with
  | nil => exact h
  | cons op rest ih =>
    have hstep : keys_agree (apply_op m op) := by
      cases op with
      | register now c i => exact keys_agree_register m now c i h
      | unregister c => exact keys_agree_unregister m c h
      | ping now c => exact keys_agree_ping m now c h
    exact ih (apply_op m op) hstep

/-- C9: after every sequence of register, unregister and ping operations run
from a freshly constructed manager, the set of chain ids carrying a
`last_seen` entry equals the set carrying a `ping_interval` entry; in
particular `get_last_seen` returns `none` exactly when `get_ping_interval`
does. -/
theorem C9_registry_key_invariant (d : Int) (ops : List RegistryOp) :
    keys_agree (run_ops (initial_manager d) ops) ∧
    ∀ c, (get_last_seen (run_ops (initial_manager d) ops) c = none ↔
          get_ping_interval (run_ops (initial_manager d) ops) c = none) := by
  have h : keys_agree (run_ops (initial_manager d) ops) :=
    keys_agree_run_ops ops (initial_manager d) (fun _ => rfl)
  refine ⟨h, fun c => ?_⟩
  have hc := h c
  simp only [get_last_seen, get_ping_interval]
  constructor
  · intro he
    rw [he] at hc
    cases hh : dictLookup (run_ops (initial_manager d) ops).ping_intervals c
    · rfl
    · rw [hh] at hc
      simp at hc
  · intro he
    rw [he] at hc
    cases hh : dictLookup (run_ops (initial_manager d) ops).last_seen c
    · rfl
    · rw [hh] at hc
      simp at hc

end CrossChainHealth
